import Mathlib

/-!
Verification of the serverless order system (`src/app.py`, `src/order_expiry.py`).

The two Python Lambda handlers are shallowly embedded as pure Lean functions.
The DynamoDB `Orders` table is modelled as a `List Order`; the key-based
primitives `put_item`, `get_item`, `update_item`, `delete_item` and `scan`
are modelled over that list, with `order_id` playing the role of the table key.
Timestamps are ISO-8601 strings compared lexicographically, exactly as the
Python code compares them; `datetime.utcnow()` results and fresh UUIDs are
passed in as explicit parameters.  Python string comparison and
`str.upper` are modelled by `pyLt` and `pyUpper` below, which agree with
Python on ASCII input (all status literals in the code are ASCII).
-/

/-- Python `<` on the character lists of two strings: lexicographic by
code point, a strict prefix being smaller. -/
def charListLt : List Char → List Char → Bool
  | [], [] => false
  | [], _ :: _ => true
  | _ :: _, [] => false
  | a :: as, b :: bs => if a < b then true else if b < a then false else charListLt as bs

/-- Python `s1 < s2` on strings (lexicographic by code point). -/
def pyLt (a b : String) : Bool := charListLt a.data b.data

/-- Python `str.upper`, modelled character-wise with `Char.toUpper`
(agrees with Python on ASCII, which covers every status literal in the
code). -/
def pyUpper (s : String) : String := ⟨s.data.map Char.toUpper⟩

/-- An order record in the `Orders` table (`app.py` lines 63-71).
`created_at` is optional because legacy records may lack it
(`order_expiry.py` lines 49-54); `expired_at` is set only by the sweeper. -/
structure Order where
  order_id : String
  item : String
  quantity : Int
  status : String
  customer_name : String
  customer_email : String
  created_at : Option String
  expired_at : Option String
deriving DecidableEq

/-- The JSON request body, with each field optional: `none` models a key
absent from the parsed JSON object. -/
structure Body where
  item : Option String := none
  quantity : Option Int := none
  customer_name : Option String := none
  customer_email : Option String := none
  status : Option String := none
deriving DecidableEq

/-- An inbound API-Gateway style request.  `pathOrderId` is
`pathParameters['order_id']` when present; `queryStatus` is
`queryStringParameters.get('status')`; `body` is `none` when `event['body']`
is absent or not valid JSON (in which case `json.loads` raises and the
top-level handler answers 500). -/
structure Request where
  httpMethod : String
  pathOrderId : Option String := none
  queryStatus : Option String := none
  body : Option Body := none
deriving DecidableEq

/-- The JSON payload of a handler response, by shape. -/
inductive RespBody where
  | errorMsg (msg : String)
  | createdOrder (o : Order)
  | gotOrder (o : Order)
  | orderList (count : Nat) (orders : List Order)
  | updatedOrder (o : Order)
  | deletedId (id : String)
deriving DecidableEq

/-- A handler response: `{statusCode, body}`. -/
structure Response where
  statusCode : Nat
  body : RespBody
deriving DecidableEq

/-- The store: the contents of the `Orders` DynamoDB table. -/
abbrev Store := List Order

/-- `table.get_item(Key={'order_id': id})`: point lookup by key. -/
def findOrder (store : Store) (id : String) : Option Order :=
  store.find? (fun o => o.order_id == id)

/-- `table.put_item(Item=o)`: key-based overwrite-or-insert.  Any record
with the same key is replaced; list position of the new record is a
modelling artifact (DynamoDB tables are unordered). -/
def put_item (store : Store) (o : Order) : Store :=
  store.filter (fun r => r.order_id != o.order_id) ++ [o]

/-- The five statuses accepted by Update (`app.py` line 135). -/
def allowed_statuses : List String :=
  ["PENDING", "PROCESSING", "COMPLETED", "CANCELLED", "EXPIRED"]

/-- The record built by `create_order` (`app.py` lines 63-71):
fresh id, caller-supplied item/quantity, status PENDING, defaulted
customer fields, `created_at` stamped with the current UTC time. -/
def newOrder (freshId now : String) (it : String) (q : Int) (b : Body) : Order :=
  { order_id := freshId
    item := it
    quantity := q
    status := "PENDING"
    customer_name := b.customer_name.getD "anonymous"
    customer_email := b.customer_email.getD ""
    created_at := some now
    expired_at := none }

/-- `create_order` (`app.py` lines 50-82).  Missing body means
`json.loads(event['body'])` raised, caught at top level as a 500. -/
def create_order (freshId now : String) (body? : Option Body) (store : Store) :
    Response × Store :=
  match body? with
  | none => (⟨500, .errorMsg "invalid body"⟩, store)
  | some b =>
    match b.item, b.quantity with
    | some it, some q =>
      let o := newOrder freshId now it q b
      (⟨201, .createdOrder o⟩, put_item store o)
    | _, _ => (⟨400, .errorMsg "item and quantity are required"⟩, store)

/-- `get_order` (`app.py` lines 85-100). -/
def get_order (id : String) (store : Store) : Response × Store :=
  match findOrder store id with
  | none => (⟨404, .errorMsg "order not found"⟩, store)
  | some o => (⟨200, .gotOrder o⟩, store)

/-- `list_orders` (`app.py` lines 103-122): full scan, then an in-memory
filter applied only when the `status` query parameter is a truthy
(non-empty) string, comparing against the upper-cased filter value. -/
def list_orders (queryStatus : Option String) (store : Store) :
    Response × Store :=
  let items :=
    match queryStatus with
    | some s => if s ≠ "" then store.filter (fun o => o.status == pyUpper s) else store
    | none => store
  (⟨200, .orderList items.length items⟩, store)

/-- `update_order` (`app.py` lines 125-168): requires a `status` field whose
upper-cased value is in `allowed_statuses`, then requires the order to
exist, then overwrites `status` (SET #status = :status, ALL_NEW). -/
def update_order (id : String) (body? : Option Body) (store : Store) :
    Response × Store :=
  match body? with
  | none => (⟨500, .errorMsg "invalid body"⟩, store)
  | some b =>
    match b.status with
    | none => (⟨400, .errorMsg "status field is required"⟩, store)
    | some s =>
      if ¬ allowed_statuses.contains (pyUpper s) then
        (⟨400, .errorMsg "status must be one of the allowed statuses"⟩, store)
      else
        match findOrder store id with
        | none => (⟨404, .errorMsg "order not found"⟩, store)
        | some r =>
          let store' := store.map
            (fun o => if o.order_id == id then { o with status := pyUpper s } else o)
          (⟨200, .updatedOrder { r with status := pyUpper s }⟩, store')

/-- `delete_order` (`app.py` lines 171-189): 404 when absent, else remove. -/
def delete_order (id : String) (store : Store) : Response × Store :=
  match findOrder store id with
  | none => (⟨404, .errorMsg "order not found"⟩, store)
  | some _ => (⟨200, .deletedId id⟩, store.filter (fun r => r.order_id != id))

/-- `lambda_handler` of `app.py` (lines 21-47): method-based routing.
For PUT and DELETE the code evaluates `path_parameters['order_id']`
before dispatching; a missing key raises `KeyError`, caught at top
level as a 500. -/
def lambda_handler (freshId now : String) (req : Request) (store : Store) :
    Response × Store :=
  if req.httpMethod == "POST" then
    create_order freshId now req.body store
  else if req.httpMethod == "GET" then
    match req.pathOrderId with
    | some id => get_order id store
    | none => list_orders req.queryStatus store
  else if req.httpMethod == "PUT" then
    match req.pathOrderId with
    | none => (⟨500, .errorMsg "KeyError: order_id"⟩, store)
    | some id => update_order id req.body store
  else if req.httpMethod == "DELETE" then
    match req.pathOrderId with
    | none => (⟨500, .errorMsg "KeyError: order_id"⟩, store)
    | some id => delete_order id store
  else
    (⟨400, .errorMsg "unsupported method"⟩, store)

/-! ## Expiry sweeper (`src/order_expiry.py`) -/

/-- The per-record expiry write of the sweeper (`order_expiry.py` lines
59-67): `update_item` keyed by `order_id`, setting `status = EXPIRED` and
`expired_at = stamp` on the record with that key. -/
def expireUpdate (stamp id : String) (store : Store) : Store :=
  store.map (fun r =>
    if r.order_id == id then { r with status := "EXPIRED", expired_at := some stamp }
    else r)

/-- The sweeper's `for order in pending_orders` loop (`order_expiry.py`
lines 47-76): skip records with an absent or empty `created_at`
(`order.get('created_at', '')` is falsy), expire the rest when their
`created_at` string is lexicographically below the cutoff, accumulating
the ids of expired orders in loop order.  `stamp` models the
`datetime.utcnow()` value rendered for `expired_at` during this run. -/
def sweepLoop (cutoff stamp : String) :
    List Order → Store → Store × List String
  | [], store => (store, [])
  | o :: rest, store =>
    let c := o.created_at.getD ""
    if c = "" then sweepLoop cutoff stamp rest store
    else if pyLt c cutoff then
      let res := sweepLoop cutoff stamp rest (expireUpdate stamp o.order_id store)
      (res.1, o.order_id :: res.2)
    else sweepLoop cutoff stamp rest store

/-- The sweep summary returned by `lambda_handler` of `order_expiry.py`
(lines 78-84). -/
structure SweepSummary where
  total_pending_checked : Nat
  orders_expired : Nat
  expired_order_ids : List String
deriving DecidableEq

/-- One run of the expiry sweeper (`order_expiry.py` lines 22-91):
scan for `status = PENDING`, loop over the snapshot, return the new
store contents together with the summary payload.  `cutoff` models
`(utcnow() - 24h).isoformat() + 'Z'` and `stamp` the `expired_at`
timestamp, both ISO-8601 strings. -/
def sweepRun (cutoff stamp : String) (store : Store) : Store × SweepSummary :=
  let pending := store.filter (fun o => o.status == "PENDING")
  let res := sweepLoop cutoff stamp pending store
  (res.1, ⟨pending.length, res.2.length, res.2⟩)

/-- A concrete order record used to instantiate the theorems below. -/
def sampleOrder : Order :=
  { order_id := "id-9"
    item := "pen"
    quantity := 1
    status := "PENDING"
    customer_name := "anonymous"
    customer_email := ""
    created_at := some "2026-01-01T00:00:00Z"
    expired_at := none }

example : pyLt "2026-10-10T00:00:00Z" "2026-10-11T00:00:00Z" = true := by decide
example : pyLt "abc" "abc" = false := by decide
example : pyUpper "completed" = "COMPLETED" := by decide
example : pyLt "abc" "abcd" = true := by decide

/-! ## Store lemmas -/

/-- A freshly `put` record is found by a point lookup on its key. -/
theorem findOrder_put_item (store : Store) (o : Order) :
    findOrder (put_item store o) o.order_id = some o := by
  unfold findOrder put_item
  rw [List.find?_append]
  have h1 : (store.filter (fun r => r.order_id != o.order_id)).find?
      (fun r => r.order_id == o.order_id) = none := by
    rw [List.find?_eq_none]
    intro x hx
    simp only [List.mem_filter, bne_iff_ne, ne_eq] at hx
    simp [hx.2]
  rw [h1]
  simp

/-- After removing every record with key `id`, a point lookup on `id`
finds nothing. -/
theorem findOrder_erase (store : Store) (id : String) :
    findOrder (store.filter (fun r => r.order_id != id)) id = none := by
  unfold findOrder
  rw [List.find?_eq_none]
  intro x hx
  simp only [List.mem_filter, bne_iff_ne, ne_eq] at hx
  simp [hx.2]

/-- Point lookup commutes with a store-wide map that preserves keys. -/
theorem findOrder_map (store : Store) (id : String) (g : Order → Order)
    (hg : ∀ o, (g o).order_id = o.order_id) :
    findOrder (store.map g) id = (findOrder store id).map g := by
  unfold findOrder
  rw [List.find?_map]
  have : ((fun o : Order => o.order_id == id) ∘ g) = (fun o : Order => o.order_id == id) := by
    funext o
    simp [Function.comp, hg]
  rw [this]

/-! ## Claims about the Order Service -/

/-- C7: a Create whose payload lacks the `item` field or lacks the
`quantity` field always answers with a validation error (400) and leaves
the store unchanged, so no record is created. -/
theorem create_missing_field_rejected (freshId now : String) (b : Body) (store : Store)
    (h : b.item = none ∨ b.quantity = none) :
    (create_order freshId now (some b) store).1.statusCode = 400 ∧
    (create_order freshId now (some b) store).2 = store := by
  cases hi : b.item <;> cases hq : b.quantity <;> simp_all [create_order]

/-- Witness for `create_missing_field_rejected`: a payload with `item` but
no `quantity`. -/
theorem create_missing_field_rejected_witness :
    (create_order "id-1" "2026-01-01T00:00:00Z" (some { item := some "widget" }) []).1.statusCode = 400 ∧
    (create_order "id-1" "2026-01-01T00:00:00Z" (some { item := some "widget" }) []).2 = [] :=
  create_missing_field_rejected "id-1" "2026-01-01T00:00:00Z" _ [] (Or.inr rfl)

/-- C8: a successful Create (payload carries both `item` and `quantity`)
answers 201 with the created record, whose status is PENDING and whose
`order_id` is the fresh id, and an immediate Get-by-id with that id on the
updated store answers 200 with the very same record. -/
theorem create_then_get (freshId now : String) (b : Body) (store : Store)
    (it : String) (q : Int) (hi : b.item = some it) (hq : b.quantity = some q) :
    (create_order freshId now (some b) store).1 =
      ⟨201, .createdOrder (newOrder freshId now it q b)⟩ ∧
    (newOrder freshId now it q b).status = "PENDING" ∧
    (newOrder freshId now it q b).order_id = freshId ∧
    (get_order freshId ((create_order freshId now (some b) store).2)).1 =
      ⟨200, .gotOrder (newOrder freshId now it q b)⟩ := by
  refine ⟨by simp [create_order, hi, hq], rfl, rfl, ?_⟩
  have h := findOrder_put_item store (newOrder freshId now it q b)
  simp only [create_order, hi, hq]
  unfold get_order
  rw [show (newOrder freshId now it q b).order_id = freshId from rfl] at h
  rw [h]

/-- Witness for `create_then_get` on a concrete payload and empty store. -/
theorem create_then_get_witness :
    (create_order "uuid-7" "2026-02-03T04:05:06Z"
        (some { item := some "book", quantity := some 2 }) []).1 =
      ⟨201, .createdOrder (newOrder "uuid-7" "2026-02-03T04:05:06Z" "book" 2
        { item := some "book", quantity := some 2 })⟩ ∧
    (newOrder "uuid-7" "2026-02-03T04:05:06Z" "book" 2
        { item := some "book", quantity := some 2 }).status = "PENDING" ∧
    (newOrder "uuid-7" "2026-02-03T04:05:06Z" "book" 2
        { item := some "book", quantity := some 2 }).order_id = "uuid-7" ∧
    (get_order "uuid-7" ((create_order "uuid-7" "2026-02-03T04:05:06Z"
        (some { item := some "book", quantity := some 2 }) []).2)).1 =
      ⟨200, .gotOrder (newOrder "uuid-7" "2026-02-03T04:05:06Z" "book" 2
        { item := some "book", quantity := some 2 })⟩ :=
  create_then_get "uuid-7" "2026-02-03T04:05:06Z" _ [] "book" 2 rfl rfl

/-- C9: deleting an existing order answers 200 with its id, and a
subsequent Get-by-id on the same id answers 404: deletion removes the
record from the store. -/
theorem delete_then_get (id : String) (store : Store) (r : Order)
    (h : findOrder store id = some r) :
    (delete_order id store).1 = ⟨200, .deletedId id⟩ ∧
    (get_order id (delete_order id store).2).1 = ⟨404, .errorMsg "order not found"⟩ := by
  unfold delete_order
  rw [h]
  simp [get_order, findOrder_erase]

/-- Witness for `delete_then_get` on a singleton store. -/
theorem delete_then_get_witness :
    (delete_order "id-9" [sampleOrder]).1 = ⟨200, .deletedId "id-9"⟩ ∧
    (get_order "id-9" (delete_order "id-9" [sampleOrder]).2).1 =
      ⟨404, .errorMsg "order not found"⟩ :=
  delete_then_get "id-9" [sampleOrder] sampleOrder (by decide)

/-- C3: an Update whose `status` value upper-cases to something outside
the allowed set always answers 400 and changes nothing, whether or not
the order exists; an Update whose `status` upper-cases into the allowed
set, on an existing order, always answers 200 with the record carrying
the upper-cased status, and stores that upper-cased status. -/
theorem update_status_validation (id : String) (b : Body) (s : String) (store : Store)
    (hs : b.status = some s) :
    (allowed_statuses.contains (pyUpper s) = false →
      (update_order id (some b) store).1.statusCode = 400 ∧
      (update_order id (some b) store).2 = store) ∧
    (∀ r, allowed_statuses.contains (pyUpper s) = true →
      findOrder store id = some r →
      (update_order id (some b) store).1 =
        ⟨200, .updatedOrder { r with status := pyUpper s }⟩ ∧
      findOrder ((update_order id (some b) store).2) id =
        some { r with status := pyUpper s }) := by
  constructor
  · intro hna
    have hna' : ¬ pyUpper s ∈ allowed_statuses := by
      intro hmem
      have : allowed_statuses.contains (pyUpper s) = true := List.elem_eq_true_of_mem hmem
      rw [this] at hna
      cases hna
    simp [update_order, hs]
    rw [if_neg hna']
    exact ⟨rfl, rfl⟩
  · intro r ha hr
    simp only [update_order, hs, hr]
    rw [if_neg (not_not_intro ha)]
    refine ⟨rfl, ?_⟩
    have hg : ∀ o : Order,
        ((fun o : Order => if o.order_id == id then { o with status := pyUpper s } else o) o).order_id
          = o.order_id := by
      intro o
      by_cases h : (o.order_id == id) = true <;> simp [h]
    show findOrder (store.map
      (fun o => if o.order_id == id then { o with status := pyUpper s } else o)) id =
      some { r with status := pyUpper s }
    rw [findOrder_map store id _ hg, hr]
    have hr' : store.find? (fun o => o.order_id == id) = some r := hr
    have hpr : (r.order_id == id) = true :=
      List.find?_some (p := fun o : Order => o.order_id == id) hr'
    simp [hpr]
    intro h
    exact absurd (by simpa using hpr) h

/-- Witness for `update_status_validation`: updating the sample order to
`completed` (lower case) succeeds and stores `COMPLETED`. -/
theorem update_status_validation_witness :
    (update_order "id-9" (some { status := some "completed" }) [sampleOrder]).1 =
      ⟨200, .updatedOrder { sampleOrder with status := pyUpper "completed" }⟩ ∧
    findOrder ((update_order "id-9" (some { status := some "completed" }) [sampleOrder]).2) "id-9" =
      some { sampleOrder with status := pyUpper "completed" } :=
  (update_status_validation "id-9" { status := some "completed" } "completed" [sampleOrder]
    rfl).2 sampleOrder (by decide) (by decide)

/-- C6 counterexample: an empty status filter value (`?status=`) is falsy
in Python, so the code skips filtering and returns every record — not the
subset whose status equals the upper-cased filter value `""`. -/
theorem list_orders_empty_filter_cex :
    (list_orders (some "") [sampleOrder]).1 = ⟨200, .orderList 1 [sampleOrder]⟩ ∧
    [sampleOrder].filter (fun o => o.status == pyUpper "") = [] := by
  decide

/-- C6 amended: for a non-empty status filter value (any letter case) the
List response is exactly the records whose status equals the upper-cased
filter value together with their count; with no filter, or with an empty
filter value, all records are returned. -/
theorem list_orders_filter (store : Store) (qs : Option String) :
    (∀ s, qs = some s → s ≠ "" →
      (list_orders qs store).1 = ⟨200, .orderList
        (store.filter (fun o => o.status == pyUpper s)).length
        (store.filter (fun o => o.status == pyUpper s))⟩) ∧
    ((qs = none ∨ qs = some "") →
      (list_orders qs store).1 = ⟨200, .orderList store.length store⟩) := by
  constructor
  · intro s hqs hs
    subst hqs
    simp [list_orders, hs]
  · rintro (h | h) <;> subst h <;> simp [list_orders]

/-- Witness for `list_orders_filter`: filtering a singleton store by
`completed`. -/
theorem list_orders_filter_witness :
    (list_orders (some "completed") [sampleOrder]).1 = ⟨200, .orderList
      ([sampleOrder].filter (fun o => o.status == pyUpper "completed")).length
      ([sampleOrder].filter (fun o => o.status == pyUpper "completed"))⟩ :=
  (list_orders_filter [sampleOrder] (some "completed")).1 "completed" rfl (by decide)

/-- C4 counterexample: a PUT request with no `order_id` path parameter is
not one of the five handled operations, yet the handler answers 500 (the
`KeyError` raised by `path_parameters['order_id']` is caught at top level
as an internal error), not the generic 400. -/
theorem unsupported_route_cex :
    (lambda_handler "id" "t" { httpMethod := "PUT" } []).1.statusCode = 500 ∧
    (lambda_handler "id" "t" { httpMethod := "PUT" } []).1.statusCode ≠ 400 := by
  decide

/-- C4 amended: a request whose HTTP method is none of POST, GET, PUT,
DELETE always answers the generic bad-request 400 with the store
unchanged; a PUT or DELETE request without an `order_id` path parameter
instead answers an internal-error 500 (also leaving the store unchanged). -/
theorem unsupported_method_400 (freshId now : String) (req : Request) (store : Store) :
    (req.httpMethod ∉ (["POST", "GET", "PUT", "DELETE"] : List String) →
      (lambda_handler freshId now req store).1 = ⟨400, .errorMsg "unsupported method"⟩ ∧
      (lambda_handler freshId now req store).2 = store) ∧
    ((req.httpMethod = "PUT" ∨ req.httpMethod = "DELETE") → req.pathOrderId = none →
      (lambda_handler freshId now req store).1.statusCode = 500 ∧
      (lambda_handler freshId now req store).2 = store) := by
  constructor
  · intro h
    simp only [List.mem_cons, List.not_mem_nil, or_false, not_or] at h
    obtain ⟨h1, h2, h3, h4⟩ := h
    simp [lambda_handler, h1, h2, h3, h4]
  · rintro (hm | hm) hp <;> simp [lambda_handler, hm, hp]

/-- Witness for `unsupported_method_400`: a PATCH request. -/
theorem unsupported_method_400_witness :
    (lambda_handler "id" "t" { httpMethod := "PATCH" } []).1 =
      ⟨400, .errorMsg "unsupported method"⟩ ∧
    (lambda_handler "id" "t" { httpMethod := "PATCH" } []).2 = [] :=
  (unsupported_method_400 "id" "t" { httpMethod := "PATCH" } []).1 (by decide)

/-- Create leaves the store unchanged whenever it answers 400 or 404. -/
theorem create_order_error_unchanged (freshId now : String) (body? : Option Body)
    (store : Store)
    (h : (create_order freshId now body? store).1.statusCode = 400 ∨
         (create_order freshId now body? store).1.statusCode = 404) :
    (create_order freshId now body? store).2 = store := by
  cases body? with
  | none => rfl
  | some b =>
    cases hi : b.item with
    | none => simp [create_order, hi]
    | some it =>
      cases hq : b.quantity with
      | none => simp [create_order, hi, hq]
      | some q =>
        exfalso
        simp [create_order, hi, hq] at h

/-- Update leaves the store unchanged whenever it answers 400 or 404. -/
theorem update_order_error_unchanged (id : String) (body? : Option Body) (store : Store)
    (h : (update_order id body? store).1.statusCode = 400 ∨
         (update_order id body? store).1.statusCode = 404) :
    (update_order id body? store).2 = store := by
  cases body? with
  | none => rfl
  | some b =>
    cases hst : b.status with
    | none => simp [update_order, hst]
    | some s =>
      by_cases hc : allowed_statuses.contains (pyUpper s) = true
      · cases hf : findOrder store id with
        | none =>
          simp only [update_order, hst, hf]
          rw [if_neg (not_not_intro hc)]
        | some r =>
          exfalso
          simp only [update_order, hst, hf] at h
          rw [if_neg (not_not_intro hc)] at h
          simp at h
      · simp only [update_order, hst]
        rw [if_pos (by simpa using hc)]

/-- Delete leaves the store unchanged whenever it answers 400 or 404. -/
theorem delete_order_error_unchanged (id : String) (store : Store)
    (h : (delete_order id store).1.statusCode = 400 ∨
         (delete_order id store).1.statusCode = 404) :
    (delete_order id store).2 = store := by
  cases hf : findOrder store id with
  | none => simp [delete_order, hf]
  | some r =>
    exfalso
    simp [delete_order, hf] at h

/-- Get never writes to the store. -/
theorem get_order_snd (id : String) (store : Store) :
    (get_order id store).2 = store := by
  unfold get_order
  cases findOrder store id <;> rfl

/-- C10: whenever the Order Service answers a request with a
validation-error 400 or a not-found 404, the store is left completely
unchanged: every error check in Create, Update and Delete happens before
any write. -/
theorem error_response_store_unchanged (freshId now : String) (req : Request)
    (store : Store)
    (h : (lambda_handler freshId now req store).1.statusCode = 400 ∨
         (lambda_handler freshId now req store).1.statusCode = 404) :
    (lambda_handler freshId now req store).2 = store := by
  by_cases h1 : req.httpMethod = "POST"
  · simp only [lambda_handler, h1, beq_self_eq_true, if_true] at h ⊢
    exact create_order_error_unchanged _ _ _ _ h
  · by_cases h2 : req.httpMethod = "GET"
    · simp [lambda_handler, h2] at h ⊢
      cases req.pathOrderId with
      | none => rfl
      | some id => exact get_order_snd id store
    · by_cases h3 : req.httpMethod = "PUT"
      · simp [lambda_handler, h3] at h ⊢
        cases hp : req.pathOrderId with
        | none => rfl
        | some id =>
          rw [hp] at h
          exact update_order_error_unchanged _ _ _ h
      · by_cases h4 : req.httpMethod = "DELETE"
        · simp [lambda_handler, h4] at h ⊢
          cases hp : req.pathOrderId with
          | none => rfl
          | some id =>
            rw [hp] at h
            exact delete_order_error_unchanged _ _ h
        · simp [lambda_handler, h1, h2, h3, h4]

/-- Witness for `error_response_store_unchanged`: an Update on a missing
order answers 404 and leaves a singleton store intact. -/
theorem error_response_store_unchanged_witness :
    (lambda_handler "id" "t"
      { httpMethod := "PUT", pathOrderId := some "nope",
        body := some { status := some "PENDING" } } [sampleOrder]).2 = [sampleOrder] :=
  error_response_store_unchanged "id" "t"
    { httpMethod := "PUT", pathOrderId := some "nope",
      body := some { status := some "PENDING" } } [sampleOrder] (Or.inr (by decide))

/-! ## Sweeper lemmas -/

/-- The expiry write preserves any record function that ignores `status`
and `expired_at`. -/
theorem expireUpdate_map_eq {α : Type} (stamp id : String) (store : Store)
    (f : Order → α)
    (hf : ∀ r, f { r with status := "EXPIRED", expired_at := some stamp } = f r) :
    (expireUpdate stamp id store).map f = store.map f := by
  unfold expireUpdate
  rw [List.map_map]
  apply List.map_congr_left
  intro r _
  show f (if (r.order_id == id) = true
    then { r with status := "EXPIRED", expired_at := some stamp } else r) = f r
  by_cases h : (r.order_id == id) = true
  · rw [if_pos h]
    exact hf r
  · rw [if_neg h]

/-- A record is untouched by an expiry write keyed at a different id, or
one that would rewrite its fields to the values they already have. -/
theorem mem_expireUpdate (stamp id : String) (store : Store) (o : Order)
    (ho : o ∈ store)
    (h : o.order_id ≠ id ∨ (o.status = "EXPIRED" ∧ o.expired_at = some stamp)) :
    o ∈ expireUpdate stamp id store := by
  have hfix : (fun r : Order =>
      if r.order_id == id then { r with status := "EXPIRED", expired_at := some stamp }
      else r) o = o := by
    rcases h with h | ⟨h1, h2⟩
    · simp [h]
    · by_cases hid : (o.order_id == id) = true
      · obtain ⟨oid, oit, oq, ost, ocn, oce, oca, oea⟩ := o
        simp_all
      · simp [hid]
  have hm := List.mem_map_of_mem (fun r : Order =>
      if r.order_id == id then { r with status := "EXPIRED", expired_at := some stamp }
      else r) ho
  rw [hfix] at hm
  exact hm

/-- The expiry write keyed at a record's own id puts the expired version
of that record into the store. -/
theorem expired_mem_expireUpdate (stamp : String) (store : Store) (o : Order)
    (ho : o ∈ store) :
    { o with status := "EXPIRED", expired_at := some stamp } ∈
      expireUpdate stamp o.order_id store := by
  have hm := List.mem_map_of_mem (fun r : Order =>
      if r.order_id == o.order_id then { r with status := "EXPIRED", expired_at := some stamp }
      else r) ho
  rw [show (fun r : Order =>
      if r.order_id == o.order_id then { r with status := "EXPIRED", expired_at := some stamp }
      else r) o = { o with status := "EXPIRED", expired_at := some stamp } by simp] at hm
  exact hm

/-- An already-expired record carrying this run's stamp survives the rest
of the sweep loop unchanged: every later write either misses it or sets
exactly the values it already has. -/
theorem sweepLoop_mem_expired (cutoff stamp : String) (pending : List Order)
    (store : Store) (o : Order) (ho : o ∈ store)
    (h1 : o.status = "EXPIRED") (h2 : o.expired_at = some stamp) :
    o ∈ (sweepLoop cutoff stamp pending store).1 := by
  induction pending generalizing store with
  | nil => simpa [sweepLoop] using ho
  | cons p rest ih =>
    simp only [sweepLoop]
    split
    · exact ih store ho
    · split
      · exact ih _ (mem_expireUpdate _ _ _ _ ho (Or.inr ⟨h1, h2⟩))
      · exact ih store ho

/-- A record is untouched by the sweep loop when no record of the pending
snapshot that passes the age check shares its id. -/
theorem sweepLoop_mem_of_safe (cutoff stamp : String) (pending : List Order)
    (store : Store) (o : Order) (ho : o ∈ store)
    (hsafe : ∀ p ∈ pending, p.created_at.getD "" ≠ "" →
      pyLt (p.created_at.getD "") cutoff = true → p.order_id ≠ o.order_id) :
    o ∈ (sweepLoop cutoff stamp pending store).1 := by
  induction pending generalizing store with
  | nil => simpa [sweepLoop] using ho
  | cons p rest ih =>
    simp only [sweepLoop]
    split
    · exact ih store ho (fun q hq => hsafe q (List.mem_cons_of_mem _ hq))
    · rename_i hne
      split
      · rename_i hlt
        apply ih
        · exact mem_expireUpdate _ _ _ _ ho
            (Or.inl (Ne.symm (hsafe p (List.mem_cons_self _ _) hne hlt)))
        · exact fun q hq => hsafe q (List.mem_cons_of_mem _ hq)
      · exact ih store ho (fun q hq => hsafe q (List.mem_cons_of_mem _ hq))

/-- A pending-snapshot record that is non-legacy and older than the
cutoff ends the sweep loop expired with this run's stamp, provided no
other snapshot record shares its id. -/
theorem sweepLoop_expires (cutoff stamp : String) (pending : List Order)
    (store : Store) (o : Order) (c : String)
    (ho : o ∈ store) (hmem : o ∈ pending) (hca : o.created_at = some c)
    (hne : c ≠ "") (hlt : pyLt c cutoff = true)
    (hinj : ∀ p ∈ pending, p.order_id = o.order_id → p = o) :
    { o with status := "EXPIRED", expired_at := some stamp } ∈
      (sweepLoop cutoff stamp pending store).1 := by
  induction pending generalizing store with
  | nil => cases hmem
  | cons p rest ih =>
    by_cases hpo : p = o
    · subst hpo
      have hne' : ¬ p.created_at.getD "" = "" := by
        rw [hca]
        simpa using hne
      have hlt' : pyLt (p.created_at.getD "") cutoff = true := by
        rw [hca]
        simpa using hlt
      simp only [sweepLoop]
      rw [if_neg hne', if_pos hlt']
      exact sweepLoop_mem_expired cutoff stamp rest _ _
        (expired_mem_expireUpdate stamp store p ho) rfl rfl
    · have hmem' : o ∈ rest := by
        rcases List.mem_cons.mp hmem with h | h
        · exact absurd h.symm hpo
        · exact h
      have hinj' : ∀ q ∈ rest, q.order_id = o.order_id → q = o :=
        fun q hq => hinj q (List.mem_cons_of_mem _ hq)
      simp only [sweepLoop]
      split
      · exact ih store ho hmem' hinj'
      · split
        · have hpid : p.order_id ≠ o.order_id :=
            fun he => hpo (hinj p (List.mem_cons_self _ _) he)
          exact ih _
            (mem_expireUpdate _ _ _ _ ho (Or.inl (Ne.symm hpid))) hmem' hinj'
        · exact ih store ho hmem' hinj'

/-- The sweep loop preserves any record function that ignores `status`
and `expired_at`; in particular it preserves the list of keys. -/
theorem sweepLoop_map_eq {α : Type} (cutoff stamp : String) (pending : List Order)
    (store : Store) (f : Order → α)
    (hf : ∀ r, f { r with status := "EXPIRED", expired_at := some stamp } = f r) :
    ((sweepLoop cutoff stamp pending store).1).map f = store.map f := by
  induction pending generalizing store with
  | nil => rfl
  | cons p rest ih =>
    simp only [sweepLoop]
    split
    · exact ih store
    · split
      · rw [ih]
        exact expireUpdate_map_eq stamp p.order_id store f hf
      · exact ih store

/-- A sweep run never changes the stored keys. -/
theorem sweepRun_map_order_id (cutoff stamp : String) (store : Store) :
    ((sweepRun cutoff stamp store).1).map Order.order_id = store.map Order.order_id := by
  unfold sweepRun
  exact sweepLoop_map_eq cutoff stamp _ store Order.order_id (fun r => rfl)

/-- The status overwrite of Update preserves any record function that
ignores `status`. -/
theorem updateStatus_map_eq {α : Type} (u id : String) (store : Store) (f : Order → α)
    (hf : ∀ r, f { r with status := u } = f r) :
    (store.map (fun o => if o.order_id == id then { o with status := u } else o)).map f =
      store.map f := by
  rw [List.map_map]
  apply List.map_congr_left
  intro r _
  show f (if (r.order_id == id) = true then { r with status := u } else r) = f r
  by_cases h : (r.order_id == id) = true
  · rw [if_pos h]
    exact hf r
  · rw [if_neg h]

/-- C1: for any stored PENDING order with a non-empty `created_at`: a
sweep run at time `now` (so with a cutoff rendered from now − 24h in the
same ISO-8601 format, hence not above `now` in the code's string order)
leaves the order untouched when `created_at = now`; and whenever
`created_at` compares below the cutoff as an ISO-8601 string, the sweep
transitions the order to EXPIRED and stamps `expired_at` with the run's
current-UTC timestamp. -/
theorem pending_sweep_expiry (cutoff stamp now : String) (store : Store) (o : Order)
    (c : String) (ho : o ∈ store) (hst : o.status = "PENDING")
    (hca : o.created_at = some c) (hne : c ≠ "")
    (hids : (store.map Order.order_id).Nodup) :
    (c = now → pyLt now cutoff = false → o ∈ (sweepRun cutoff stamp store).1) ∧
    (pyLt c cutoff = true →
      { o with status := "EXPIRED", expired_at := some stamp } ∈
        (sweepRun cutoff stamp store).1) := by
  have hinj : ∀ p ∈ store, p.order_id = o.order_id → p = o := by
    intro p hp he
    exact List.inj_on_of_nodup_map hids hp ho he
  constructor
  · intro hcn hfl
    show o ∈ (sweepLoop cutoff stamp (store.filter (fun q => q.status == "PENDING")) store).1
    apply sweepLoop_mem_of_safe cutoff stamp _ store o ho
    intro p hp hpne hplt he
    have hpo : p = o := hinj p (List.mem_filter.mp hp).1 he
    rw [hpo, hca] at hplt
    simp only [Option.getD_some] at hplt
    rw [hcn] at hplt
    rw [hfl] at hplt
    cases hplt
  · intro hlt
    show { o with status := "EXPIRED", expired_at := some stamp } ∈
      (sweepLoop cutoff stamp (store.filter (fun q => q.status == "PENDING")) store).1
    apply sweepLoop_expires cutoff stamp _ store o c ho ?_ hca hne hlt ?_
    · exact List.mem_filter.mpr ⟨ho, by simp [hst]⟩
    · intro p hp he
      exact hinj p (List.mem_filter.mp hp).1 he

/-- Witness for `pending_sweep_expiry`: a pending order created on
2026-01-01 is expired by a sweep whose cutoff is 2026-10-11. -/
theorem pending_sweep_expiry_witness :
    { sampleOrder with status := "EXPIRED", expired_at := some "2026-10-12T01:00:00Z" } ∈
      (sweepRun "2026-10-11T00:00:00Z" "2026-10-12T01:00:00Z" [sampleOrder]).1 :=
  (pending_sweep_expiry "2026-10-11T00:00:00Z" "2026-10-12T01:00:00Z"
    "2026-10-12T00:00:00Z" [sampleOrder] sampleOrder "2026-01-01T00:00:00Z"
    (by decide) rfl rfl (by decide) (by decide)).2 (by decide)

/-- C2: a stored PENDING order whose `created_at` is absent or empty is
never modified by any number of sweep runs: after any sequence of runs
(each with its own cutoff and stamp) the very same record — PENDING, with
no `expired_at` added — is still in the store. -/
theorem legacy_never_expired (store : Store) (o : Order) (ho : o ∈ store)
    (hst : o.status = "PENDING")
    (hca : o.created_at = none ∨ o.created_at = some "")
    (hids : (store.map Order.order_id).Nodup) :
    ∀ runs : List (String × String),
      o ∈ runs.foldl (fun s r => (sweepRun r.1 r.2 s).1) store := by
  intro runs
  induction runs generalizing store with
  | nil => simpa using ho
  | cons r rest ih =>
    simp only [List.foldl_cons]
    apply ih
    · show o ∈ (sweepLoop r.1 r.2 (store.filter (fun q => q.status == "PENDING")) store).1
      apply sweepLoop_mem_of_safe _ _ _ _ _ ho
      intro p hp hpne hplt he
      have hpo : p = o :=
        List.inj_on_of_nodup_map hids (List.mem_filter.mp hp).1 ho he
      apply hpne
      rw [hpo]
      rcases hca with h | h <;> rw [h] <;> rfl
    · rw [sweepRun_map_order_id]
      exact hids

/-- Witness for `legacy_never_expired`: a legacy order (no `created_at`)
survives two sweep runs unchanged. -/
theorem legacy_never_expired_witness :
    { sampleOrder with order_id := "legacy-1", created_at := none } ∈
      ([("2026-10-11T00:00:00Z", "2026-10-12T00:00:00Z"),
        ("2026-10-12T00:00:00Z", "2026-10-13T00:00:00Z")].foldl
        (fun s r => (sweepRun r.1 r.2 s).1)
        [{ sampleOrder with order_id := "legacy-1", created_at := none }]) :=
  legacy_never_expired [{ sampleOrder with order_id := "legacy-1", created_at := none }]
    { sampleOrder with order_id := "legacy-1", created_at := none }
    (by decide) rfl (Or.inl rfl) (by decide)
    [("2026-10-11T00:00:00Z", "2026-10-12T00:00:00Z"),
     ("2026-10-12T00:00:00Z", "2026-10-13T00:00:00Z")]

/-- C5: no operation of the system modifies a stored record's
`created_at`: Update and a sweep run preserve every record's
`(order_id, created_at)` pair exactly, and Delete only removes records,
leaving the remaining pairs untouched. -/
theorem created_at_immutable (store : Store) (id : String) (body? : Option Body)
    (cutoff stamp : String) :
    ((update_order id body? store).2).map (fun o => (o.order_id, o.created_at)) =
      store.map (fun o => (o.order_id, o.created_at)) ∧
    List.Sublist
      (((delete_order id store).2).map (fun o => (o.order_id, o.created_at)))
      (store.map (fun o => (o.order_id, o.created_at))) ∧
    ((sweepRun cutoff stamp store).1).map (fun o => (o.order_id, o.created_at)) =
      store.map (fun o => (o.order_id, o.created_at)) := by
  refine ⟨?_, ?_, ?_⟩
  · cases body? with
    | none => rfl
    | some b =>
      cases hst : b.status with
      | none => simp [update_order, hst]
      | some s =>
        by_cases hc : allowed_statuses.contains (pyUpper s) = true
        · cases hf : findOrder store id with
          | none =>
            simp only [update_order, hst, hf]
            rw [if_neg (not_not_intro hc)]
          | some r =>
            simp only [update_order, hst, hf]
            rw [if_neg (not_not_intro hc)]
            exact updateStatus_map_eq (pyUpper s) id store _ (fun r => rfl)
        · simp only [update_order, hst]
          rw [if_pos (by simpa using hc)]
  · cases hf : findOrder store id with
    | none =>
      simp only [delete_order, hf]
      exact List.Sublist.refl _
    | some r =>
      simp only [delete_order, hf]
      exact List.Sublist.map _ (List.filter_sublist store)
  · show ((sweepLoop cutoff stamp (store.filter (fun q => q.status == "PENDING")) store).1).map
      (fun o => (o.order_id, o.created_at)) = _
    exact sweepLoop_map_eq cutoff stamp _ store _ (fun r => rfl)
